import Mathlib

/-!
Shallow embedding of the view layer of the `web-intermediet` story-sharing
front-end (files `src/scripts/view/components/footer.js`, which bundles the
`Footer`, `Navbar` and `StoryCard` components, and the unnamed file holding
`LoginView` / `RegisterView`), together with proofs about the behaviour the
specification ascribes to it.

Modelling conventions:
* JavaScript numbers flowing through `parseFloat` / template-string printing
  are modelled as exact decimal fractions `DecNum` (mantissa / 10 ^ exponent).
  The ECMAScript `Number::toString` of a finite double round-trips through
  `parseFloat`; the embedding mirrors that with an exact decimal printer and
  parser.  Exponent notation, `Infinity` and double rounding are outside the
  modelled fragment (no claim touches them).
* DOM strings are Lean `String`s; markup produced by `render` is embedded as
  a structured record holding every data slot of the template literal.
* Browser `Date` values are `Option Int` (`none` = *Invalid Date*); the
  parser recognises ISO-like `YYYY-MM-DD[T…]` strings and the exact textual
  content of valid locale / ISO strings is abstracted (no claim reads it).
* Async externals (`window.indexedDBHelper`, `navigator.share`, clipboard)
  are parameters carrying the settled outcome of the awaited call.
-/

set_option autoImplicit false

/-! ### Decimal numbers: the fragment of JS `Number` used by the card -/

/-- Exact decimal fraction `m / 10 ^ e`, the model of a finite JS number as
produced by `parseFloat` of a decimal literal. -/
structure DecNum where
  m : Int
  e : Nat
deriving DecidableEq

/-- Character of a single decimal digit. -/
def digitChar (d : Nat) : Char := Char.ofNat (48 + d)

/-- Digits of `n`, least significant first, driven by explicit fuel so the
definition is structural (kernel-computable). -/
def natDigitsRevF : Nat → Nat → List Nat
  | 0, _ => []
  | _ + 1, 0 => []
  | f + 1, n + 1 => (n + 1) % 10 :: natDigitsRevF f ((n + 1) / 10)

/-- Value of a least-significant-first digit list. -/
def ofDigitsLsd : List Nat → Nat
  | [] => 0
  | d :: ds => d + 10 * ofDigitsLsd ds

/-- Most-significant-first character rendering of a natural number
(`0` renders as `"0"`). -/
def natMsdChars (n : Nat) : List Char :=
  if n = 0 then ['0'] else ((natDigitsRevF n n).reverse.map digitChar)

/-- Decimal rendering of a `DecNum`: the model of the template-string
conversion `${lat}` applied to a JS number.  (JS prints the shortest
round-tripping form; this printer may keep trailing zeros, which parses back
to the same value and the same representation.) -/
def decToChars (d : DecNum) : List Char :=
  let a := d.m.natAbs
  let sign : List Char := if d.m < 0 then ['-'] else []
  if d.e = 0 then
    sign ++ natMsdChars a
  else
    let ip := a / 10 ^ d.e
    let fp := a % 10 ^ d.e
    let fpDigits := (natDigitsRevF fp fp).reverse.map digitChar
    sign ++ natMsdChars ip ++ '.' :: (List.replicate (d.e - fpDigits.length) '0' ++ fpDigits)

def decToString (d : DecNum) : String := ⟨decToChars d⟩

/-- Consume leading decimal digits, Horner-accumulating their value and
counting them; returns `(value, count, rest)`. -/
def takeDigitsAcc : List Char → Nat → Nat → Nat × Nat × List Char
  | [], acc, k => (acc, k, [])
  | c :: cs, acc, k =>
    if c.isDigit then takeDigitsAcc cs (acc * 10 + (c.toNat - 48)) (k + 1)
    else (acc, k, c :: cs)

/-- Optional leading sign of a numeric literal. -/
def parseSign (cs : List Char) : Bool × List Char :=
  match cs with
  | [] => (false, [])
  | c :: r => if c = '-' then (true, r) else if c = '+' then (false, r) else (false, c :: r)

/-- Model of ECMAScript `parseFloat` on the decimal-literal fragment: an
optional sign, then the longest prefix `digits[.digits]`; `none` models a
`NaN` result.  (Exponent suffixes and `Infinity` are not modelled.) -/
def parseFloatChars (cs0 : List Char) : Option DecNum :=
  let s := parseSign cs0
  let ti := takeDigitsAcc s.2 0 0
  match ti.2.2 with
  | '.' :: cs3 =>
    let tf := takeDigitsAcc cs3 0 0
    if ti.2.1 + tf.2.1 = 0 then none
    else some ⟨(if s.1 then -((ti.1 * 10 ^ tf.2.1 + tf.1 : Nat) : Int)
                else ((ti.1 * 10 ^ tf.2.1 + tf.1 : Nat) : Int)), tf.2.1⟩
  | _ =>
    if ti.2.1 = 0 then none
    else some ⟨(if s.1 then -(ti.1 : Int) else (ti.1 : Int)), 0⟩

/-- `parseFloat` on a string, including its leading-whitespace skip. -/
def jsParseFloat (s : String) : Option DecNum :=
  parseFloatChars (s.data.dropWhile Char.isWhitespace)

/-! ### JS values and small string helpers -/

/-- The JS values a story record field may hold in the modelled fragment. -/
inductive JsVal where
  | undef
  | vnull
  | vstr (s : String)
  | vnum (d : DecNum)
deriving DecidableEq

/-- JS truthiness of a `JsVal` (`NaN` does not arise: `DecNum` is exact). -/
def JsVal.truthy : JsVal → Bool
  | .undef => false
  | .vnull => false
  | .vstr s => !s.isEmpty
  | .vnum d => d.m != 0

/-- ECMAScript `ToString` on the modelled values. -/
def JsVal.toStr : JsVal → String
  | .undef => "undefined"
  | .vnull => "null"
  | .vstr s => s
  | .vnum d => decToString d

/-- `v || dflt` where the result is consumed as a string. -/
def jsOrStr (v : JsVal) (dflt : String) : String :=
  if v.truthy then v.toStr else dflt

/-- HTML escaping performed by `_sanitizeHTML` (assigning `textContent` and
reading back `innerHTML` escapes exactly `&`, `<`, `>`). -/
def escapeChar (c : Char) : List Char :=
  if c = '&' then ['&', 'a', 'm', 'p', ';']
  else if c = '<' then ['&', 'l', 't', ';']
  else if c = '>' then ['&', 'g', 't', ';']
  else [c]

def sanitizeHTML (s : String) : String := ⟨(s.data.map escapeChar).flatten⟩

/-- `String.prototype.trim` (both ends). -/
def jsTrim (s : String) : String :=
  ⟨((s.data.dropWhile Char.isWhitespace).reverse.dropWhile Char.isWhitespace).reverse⟩

/-- `String.prototype.startsWith` on character lists. -/
def jsStartsWithL : List Char → List Char → Bool
  | _, [] => true
  | [], _ :: _ => false
  | a :: s, b :: p => a == b && jsStartsWithL s p

def jsStartsWith (s pat : String) : Bool := jsStartsWithL s.data pat.data

/-! ### Dates -/

/-- Exactly `k` decimal digits, Horner-accumulated. -/
def readDigitsExact : Nat → Nat → List Char → Option (Nat × List Char)
  | 0, acc, cs => some (acc, cs)
  | k + 1, acc, cs =>
    match cs with
    | [] => none
    | c :: cs' =>
      if c.isDigit then readDigitsExact k (acc * 10 + (c.toNat - 48)) cs' else none

/-- Model of `new Date(string)`: accepts `YYYY-MM-DD` optionally followed by a
`T…` time part, with basic range checks; everything else is *Invalid Date*
(`none`).  The returned time value is a simplified monotone encoding of the
calendar date (no claim performs real date arithmetic). -/
def jsDateParse (s : String) : Option Int :=
  match readDigitsExact 4 0 s.data with
  | none => none
  | some (y, r1) =>
    match r1 with
    | '-' :: r2 =>
      match readDigitsExact 2 0 r2 with
      | none => none
      | some (mo, r3) =>
        match r3 with
        | '-' :: r4 =>
          match readDigitsExact 2 0 r4 with
          | none => none
          | some (d, r5) =>
            if 1 ≤ mo && mo ≤ 12 && 1 ≤ d && d ≤ 31 &&
               (match r5 with | [] => true | 'T' :: _ => true | _ => false) then
              some ((((y * 12 + (mo - 1)) * 31 + (d - 1) : Nat) : Int) * 86400000)
            else none
        | _ => none
    | _ => none

/-- Fixed-width zero-padded digit rendering. -/
def padChars (w n : Nat) : List Char :=
  let ds := natMsdChars n
  List.replicate (w - ds.length) '0' ++ ds

/-- Inverse rendering of the simplified date encoding, used for
`Date.prototype.toISOString` on a valid date. -/
def isoStringOfMillis (t : Int) : String :=
  if t < 0 then "invalid"
  else
    let days := t.toNat / 86400000
    let y := days / 372
    let mo := days / 31 % 12 + 1
    let d := days % 31 + 1
    ⟨padChars 4 y ++ '-' :: padChars 2 mo ++ '-' :: padChars 2 d ++ "T00:00:00.000Z".data⟩

/-- `toISOString` throws `RangeError: Invalid time value` on an invalid date;
the throw is embedded as `Except.error`. -/
def jsToISOStringE : Option Int → Except String String
  | none => .error "RangeError: Invalid time value"
  | some t => .ok (isoStringOfMillis t)

/-- Abstracted `toLocaleDateString('id-ID', …)` text of a valid date. -/
def localeDateStringIdID (t : Int) : String := "id-ID:" ++ toString t

/-- `StoryCard._formatDate`. -/
def formatDate (s : String) : String :=
  match jsDateParse s with
  | none => "Invalid Date"
  | some t => localeDateStringIdID t

/-- `StoryCard._formatRelativeTime`.  On an invalid date the JS arithmetic is
`NaN`, every comparison is false and the function falls through to
`'Baru saja'`; `Math.floor` on the millisecond quotients is `Int.fdiv`. -/
def formatRelativeTime (now : Int) (s : String) : String :=
  match jsDateParse s with
  | none => "Baru saja"
  | some t =>
    let diff := now - t
    let seconds := Int.fdiv diff 1000
    let minutes := Int.fdiv seconds 60
    let hours := Int.fdiv minutes 60
    let days := Int.fdiv hours 24
    if days > 7 then formatDate s
    else if days > 0 then toString days ++ " hari yang lalu"
    else if hours > 0 then toString hours ++ " jam yang lalu"
    else if minutes > 0 then toString minutes ++ " menit yang lalu"
    else "Baru saja"

/-- `StoryCard._truncateText` (string length counted in characters). -/
def truncateText (text : String) (maxLength : Nat) : String :=
  if text.length ≤ maxLength then text
  else jsTrim ⟨text.data.take maxLength⟩ ++ "..."

/-! ### The story record and `StoryCard` -/

/-- The raw story record assigned to `card.story` (externally owned; each
field may be absent or of the wrong shape). -/
structure StoryInput where
  id : JsVal
  name : JsVal
  photoUrl : JsVal
  description : JsVal
  createdAt : JsVal
  lat : JsVal
  lon : JsVal
  author : JsVal
deriving DecidableEq

/-- `StoryCard._validateStoryData` output. -/
structure ValidStory where
  id : String
  name : String
  photoUrl : String
  description : String
  createdAt : String
  lat : Option DecNum
  lon : Option DecNum
  author : String
deriving DecidableEq

/-- Environment of one render: wall clock, the id `_generateId()` would mint,
and the settled value of `await this._isFavorite()` (already `false` when the
indexedDB helper is absent or its lookup rejected). -/
structure RenderEnv where
  nowMillis : Int
  genId : String
  isFavResult : Bool
deriving DecidableEq

/-- The embedded SVG placeholder returned by `_getPlaceholderImage`. -/
def placeholderImage : String :=
  "data:image/svg+xml,%3Csvg xmlns=\"http://www.w3.org/2000/svg\" width=\"400\" height=\"300\"%3E%3Crect fill=\"%23f0f0f0\" width=\"400\" height=\"300\"/%3E%3Ctext fill=\"%23999\" x=\"50%25\" y=\"50%25\" dominant-baseline=\"middle\" text-anchor=\"middle\"%3ENo Image%3C/text%3E%3C/svg%3E"

/-- `StoryCard._validateCoordinate`: `parseFloat` of the value (after JS
string coercion); `NaN` becomes `null` (`none`). -/
def validateCoordinate (v : JsVal) : Option DecNum := jsParseFloat v.toStr

/-- `StoryCard._validateStoryData`. -/
def validateStoryData (env : RenderEnv) (s : StoryInput) : ValidStory :=
  { id := jsOrStr s.id env.genId
    name := sanitizeHTML (jsOrStr s.name "Untitled Story")
    photoUrl := jsOrStr s.photoUrl placeholderImage
    description := sanitizeHTML (jsOrStr s.description "No description")
    createdAt := jsOrStr s.createdAt (isoStringOfMillis env.nowMillis)
    lat := validateCoordinate s.lat
    lon := validateCoordinate s.lon
    author := jsOrStr s.author "Anonymous" }

/-- A button element of the rendered card markup: its class list and the
attributes the component reads back. -/
structure BtnSpec where
  classes : List String
  ariaLabel : String
  title : String
  dataLat : Option String
  dataLon : Option String
deriving DecidableEq, Inhabited

/-- Structured transcription of the `render` template literal: one field per
data slot, in template order. -/
structure CardMarkup where
  storyId : String
  compact : Bool
  imgSrc : String
  imgAlt : String
  favBtn : BtnSpec
  shareBtn : BtnSpec
  locationBadge : Bool
  storyTitle : String
  author : String
  datetimeAttr : String
  dateTitle : String
  dateText : String
  description : String
  footerLoc : Option BtnSpec
  noLocationShown : Bool
  detailBtn : BtnSpec
deriving DecidableEq, Inhabited

/-- The overlay favorite button of the template:
`class="btn-icon btn-favorite ${isFavorited ? 'active' : ''}"`. -/
def favBtnSpec (isFavorited : Bool) : BtnSpec :=
  { classes := ["btn-icon", "btn-favorite"] ++ (if isFavorited then ["active"] else [])
    ariaLabel := if isFavorited then "Hapus dari favorit" else "Tambah ke favorit"
    title := if isFavorited then "Hapus dari favorit" else "Tambah ke favorit"
    dataLat := none
    dataLon := none }

/-- The overlay share button of the template: `class="btn-icon btn-share"`. -/
def shareBtnSpec : BtnSpec :=
  { classes := ["btn-icon", "btn-share"], ariaLabel := "Bagikan cerita"
    title := "Bagikan cerita", dataLat := none, dataLon := none }

/-- The footer location button of the template:
`class="btn-location" data-lat="${lat}" data-lon="${lon}"`. -/
def locBtnSpec (la lo : DecNum) : BtnSpec :=
  { classes := ["btn-location"], ariaLabel := "Lihat lokasi di peta", title := ""
    dataLat := some (decToString la), dataLon := some (decToString lo) }

/-- The footer detail button of the template: `class="btn-view-detail"`. -/
def detailBtnSpec : BtnSpec :=
  { classes := ["btn-view-detail"], ariaLabel := "Lihat detail cerita"
    title := "", dataLat := none, dataLon := none }

/-- `StoryCard.render` on a present story.  The single fallible step is the
`datetime="${new Date(createdAt).toISOString()}"` attribute, which throws on
an unparseable `createdAt` before any markup is written. -/
def renderCard (env : RenderEnv) (story : ValidStory) (compact : Bool) :
    Except String CardMarkup :=
  let hasLocation := story.lat.isSome && story.lon.isSome
  let isFavorited := env.isFavResult
  match jsToISOStringE (jsDateParse story.createdAt) with
  | .error e => .error e
  | .ok datetime =>
    .ok
      { storyId := story.id
        compact := compact
        imgSrc := story.photoUrl
        imgAlt := "Cerita: " ++ story.name
        favBtn := favBtnSpec isFavorited
        shareBtn := shareBtnSpec
        locationBadge := hasLocation
        storyTitle := story.name
        author := story.author
        datetimeAttr := datetime
        dateTitle := formatDate story.createdAt
        dateText := formatRelativeTime env.nowMillis story.createdAt
        description := truncateText story.description (if compact then 100 else 150)
        footerLoc :=
          match story.lat, story.lon with
          | some la, some lo => some (locBtnSpec la lo)
          | _, _ => none
        noLocationShown := !hasLocation
        detailBtn := detailBtnSpec }

/-- The card's button elements in document order (overlay favorite and share,
then the footer location button when present, then the detail button). -/
def CardMarkup.buttons (m : CardMarkup) : List BtnSpec :=
  [m.favBtn, m.shareBtn] ++ (match m.footerLoc with | some b => [b] | none => []) ++ [m.detailBtn]

/-- `this.querySelector('.cls')` over the card's buttons. -/
def findByClass (m : CardMarkup) (cls : String) : Option BtnSpec :=
  m.buttons.find? (fun b => b.classes.contains cls)

/-- The four custom events `StoryCard` can dispatch, with their detail. -/
inductive CardEvent where
  | locationClick (detail : ValidStory)
  | favoriteToggle (story : ValidStory) (isFavorited : Bool)
  | shareClick (story : ValidStory)
  | detailClick (story : ValidStory)
deriving DecidableEq

inductive CardHandler where
  | location
  | favorite
  | share
  | detail
deriving DecidableEq

/-- `StoryCard._attachEventListeners`: the selector each listener is attached
through, transcribed verbatim from the source (image load/error listeners,
which dispatch no events, are omitted). -/
def attachedListeners (m : CardMarkup) : List (BtnSpec × CardHandler) :=
  (match findByClass m "btn-location" with | some b => [(b, CardHandler.location)] | none => []) ++
  (match findByClass m "btn-favorite-modern" with | some b => [(b, CardHandler.favorite)] | none => []) ++
  (match findByClass m "btn-share-glass" with | some b => [(b, CardHandler.share)] | none => []) ++
  (match findByClass m "btn-view-detail" with | some b => [(b, CardHandler.detail)] | none => [])

/-- Handlers that run when the button `b` of the rendered card is clicked. -/
def handlersFor (m : CardMarkup) (b : BtnSpec) : List CardHandler :=
  (attachedListeners m).filterMap (fun p => if p.1 = b then some p.2 else none)

/-- `dataset.lat` of a button: a missing attribute reads as `undefined`, and
`parseFloat(undefined)` coerces to the string `"undefined"`. -/
def parseFloatOptAttr : Option String → Option DecNum
  | none => jsParseFloat "undefined"
  | some s => jsParseFloat s

/-- `StoryCard._handleLocationClick`: re-parse `data-lat` / `data-lon`, bail
out on `NaN`, otherwise dispatch `story-location-click` with the story spread
and the parsed coordinates. -/
def handleLocationClick (story : ValidStory) (btn : BtnSpec) : List CardEvent :=
  match parseFloatOptAttr btn.dataLat, parseFloatOptAttr btn.dataLon with
  | some la, some lo => [CardEvent.locationClick { story with lat := some la, lon := some lo }]
  | _, _ => []

/-- Observable side effects of the favorite / share handlers. -/
inductive FavEffect where
  | dbRemoveCall (id : String)
  | dbAddCall (id : String)
  | shareCall
  | clipboardWriteCall
  | toast (msg kind : String)
  | logError (msg : String)
  | dispatch (ev : CardEvent)
deriving DecidableEq

/-- `StoryCard._handleFavoriteClick`.  `dbResult` is the settled outcome of
the awaited `indexedDBHelper` call; the `catch` branch is the `.error` case.
Returns the button's state after the click together with the effects, in
program order; the function is total: no error escapes to the caller. -/
def handleFavoriteClick (helperAvailable toastAvailable : Bool)
    (dbResult : Except String Unit) (story : ValidStory) (btn : BtnSpec) :
    BtnSpec × List FavEffect :=
  if !helperAvailable then
    (btn, [FavEffect.logError "StoryCard: IndexedDB helper not available"])
  else
    let isFavorited := btn.classes.contains "active"
    let callEff := if isFavorited then FavEffect.dbRemoveCall story.id
                   else FavEffect.dbAddCall story.id
    match dbResult with
    | .error _ =>
      (btn, [callEff, FavEffect.logError "StoryCard: Error toggling favorite"] ++
            (if toastAvailable then [FavEffect.toast "Gagal mengubah favorit" "error"] else []))
    | .ok _ =>
      if isFavorited then
        ({ btn with classes := btn.classes.filter (fun c => c ≠ "active")
                    ariaLabel := "Tambah ke favorit", title := "Tambah ke favorit" },
         [callEff] ++ (if toastAvailable then [FavEffect.toast "Dihapus dari favorit" "info"] else []) ++
         [FavEffect.dispatch (CardEvent.favoriteToggle story (!isFavorited))])
      else
        ({ btn with classes := (if btn.classes.contains "active" then btn.classes
                                else btn.classes ++ ["active"])
                    ariaLabel := "Hapus dari favorit", title := "Hapus dari favorit" },
         [callEff] ++ (if toastAvailable then [FavEffect.toast "✅ Ditambahkan ke favorit" "success"] else []) ++
         [FavEffect.dispatch (CardEvent.favoriteToggle story (!isFavorited))])

/-- `StoryCard._handleShareClick`.  Every failure of `navigator.share` or the
clipboard fallback is caught; the trailing `story-share-click` dispatch sits
outside the try blocks and always happens. -/
def handleShareClick (hasNativeShare toastAvailable : Bool)
    (shareResult clipResult : Except String Unit) (story : ValidStory) : List FavEffect :=
  (if hasNativeShare then
    match shareResult with
    | .ok _ => [FavEffect.shareCall]
    | .error e =>
      [FavEffect.shareCall] ++
      (if e = "AbortError" then [] else [FavEffect.logError "StoryCard: Error sharing"])
  else
    match clipResult with
    | .ok _ =>
      [FavEffect.clipboardWriteCall] ++
      (if toastAvailable then [FavEffect.toast "✅ Link disalin ke clipboard" "success"] else [])
    | .error _ =>
      [FavEffect.clipboardWriteCall, FavEffect.logError "StoryCard: Error copying to clipboard"] ++
      (if toastAvailable then [FavEffect.toast "Gagal menyalin link" "error"] else [])) ++
  [FavEffect.dispatch (CardEvent.shareClick story)]

/-- Settled outcomes of the external collaborators a click may touch. -/
structure ExternalWorld where
  helperAvailable : Bool
  toastAvailable : Bool
  dbResult : Except String Unit
  hasNativeShare : Bool
  shareResult : Except String Unit
  clipResult : Except String Unit

/-- Events dispatched by running one attached handler. -/
def runCardHandler (w : ExternalWorld) (story : ValidStory) (btn : BtnSpec) :
    CardHandler → List CardEvent
  | .location => handleLocationClick story btn
  | .detail => [CardEvent.detailClick story]
  | .favorite =>
    (handleFavoriteClick w.helperAvailable w.toastAvailable w.dbResult story btn).2.filterMap
      (fun e => match e with | .dispatch ev => some ev | _ => none)
  | .share =>
    (handleShareClick w.hasNativeShare w.toastAvailable w.shareResult w.clipResult story).filterMap
      (fun e => match e with | .dispatch ev => some ev | _ => none)

/-- Custom events dispatched when the button `b` of the rendered card is
clicked. -/
def clickEvents (w : ExternalWorld) (m : CardMarkup) (story : ValidStory) (b : BtnSpec) :
    List CardEvent :=
  (handlersFor m b).flatMap (runCardHandler w story b)

/-- The card's `innerHTML` content. -/
inductive CardHTML where
  | blank
  | emptyState
  | story (m : CardMarkup)
deriving DecidableEq

/-- The mutable state of one `StoryCard` element. -/
structure CardState where
  story : Option ValidStory
  html : CardHTML
  compact : Bool
deriving DecidableEq

/-- The `story` property setter: a falsy value is warned about and ignored;
otherwise the story is validated, stored, and `render()` runs (a render throw
rejects the un-awaited promise, leaving the markup untouched). -/
def setStory (env : RenderEnv) (st : CardState) (v : Option StoryInput) : CardState :=
  match v with
  | none => st
  | some s =>
    let vs := validateStoryData env s
    match renderCard env vs st.compact with
    | .ok m => { st with story := some vs, html := CardHTML.story m }
    | .error _ => { st with story := some vs }

/-! ### Navbar active-link computation -/

/-- A nav link (`a[href^="#"]`) with the state `_updateActiveLink` mutates. -/
structure NavLink where
  href : String
  active : Bool
  ariaCurrent : Bool
deriving DecidableEq

/-- The activity condition of `Navbar._updateActiveLink`, transcribed from the
source. -/
def navIsActive (currentHash href : String) : Bool :=
  href == currentHash || (currentHash == "#/" && href == "#/") ||
  (jsStartsWith currentHash href && href != "#/")

/-- `Navbar._updateActiveLink`: `window.location.hash || '#/'`, then toggle
the `active` class and `aria-current` on every nav link. -/
def updateActiveLink (locationHash : String) (links : List NavLink) : List NavLink :=
  let currentHash := if locationHash.isEmpty then "#/" else locationHash
  links.map (fun l =>
    let isActive := navIsActive currentHash l.href
    { l with active := isActive, ariaCurrent := isActive })

/-! ### LoginView / RegisterView -/

structure LoginFormState where
  email : String
  password : String
deriving DecidableEq

/-- Observable actions of `LoginView` during a submit. -/
inductive LoginEffect where
  | onLoginSubmit (email password : String)
  | showAlert (msg : String)
deriving DecidableEq

/-- The submit listener installed by `LoginView._initListeners` (lines
240-250): with a presenter it forwards the raw field values, without one it
shows the system-error alert.  No validation happens here. -/
def loginSubmitHandler (presenterSet : Bool) (st : LoginFormState) : List LoginEffect :=
  if presenterSet then [LoginEffect.onLoginSubmit st.email st.password]
  else [LoginEffect.showAlert "Terjadi kesalahan sistem"]

/-- `LoginView.validateForm` (present in the source but never called on the
submit path): returns whether the form passes, plus the alert it shows. -/
def loginValidateForm (st : LoginFormState) : Bool × List LoginEffect :=
  if st.email.isEmpty || st.password.isEmpty then
    (false, [LoginEffect.showAlert "Email dan password wajib diisi!"])
  else (true, [])

/-- Whether the login form passes the browser's constraint validation: both
inputs carry the `required` attribute in the rendered markup, so each must be
non-empty.  (`type="email"` adds a format check that can only block further
submissions; the claims below only need the `required` part.)
Modelled from the HTML standard's form-submission algorithm. -/
def loginFormValid (st : LoginFormState) : Bool :=
  !st.email.isEmpty && !st.password.isEmpty

/-- The ways a form can be submitted.  Interactive submission (clicking the
submit button, pressing Enter) and `form.requestSubmit()` run constraint
validation before any `submit` event fires; `form.submit()` skips validation
but also fires no `submit` event, so the view's listener never runs.
Modelled from the HTML standard. -/
inductive SubmitPath where
  | interactive
  | requestSubmit
  | programmaticSubmit
deriving DecidableEq

/-- Effects of one submission of the login form via `path`. -/
def submitLoginForm (path : SubmitPath) (presenterSet : Bool) (st : LoginFormState) :
    List LoginEffect :=
  match path with
  | .programmaticSubmit => []
  | _ => if loginFormValid st then loginSubmitHandler presenterSet st else []

structure RegisterFormState where
  name : String
  email : String
  password : String
deriving DecidableEq

/-- Observable actions of `RegisterView` during a submit. -/
inductive RegisterEffect where
  | onRegisterSubmit (name email password : String)
  | showAlert (msg kind : String)
deriving DecidableEq

/-- The submit listener installed by `RegisterView._initListeners`: trims the
three field values and forwards them if a presenter is set.  There is no
`else` branch: without a presenter nothing at all happens. -/
def registerSubmitHandler (presenterSet : Bool) (st : RegisterFormState) :
    List RegisterEffect :=
  if presenterSet then
    [RegisterEffect.onRegisterSubmit (jsTrim st.name) (jsTrim st.email) (jsTrim st.password)]
  else []

/-! ### Style injection -/

/-- The five style-injection entry points of the repository. -/
inductive StyleOp where
  | footerRender
  | navbarScrollStyles
  | storyCardConnected
  | loginRender
  | registerRender
deriving DecidableEq

/-- `Footer.addStyles`: guarded by `getElementById('darkNavyFooter')`. -/
def footerAddStyles (doc : List String) : List String :=
  if doc.contains "darkNavyFooter" then doc else doc ++ ["darkNavyFooter"]

/-- `Navbar.addScrollStyles`: guarded by `getElementById('navbarScrollStyles')`. -/
def navbarAddScrollStyles (doc : List String) : List String :=
  if doc.contains "navbarScrollStyles" then doc else doc ++ ["navbarScrollStyles"]

/-- `StoryCard._addStyles`: guarded by `getElementById('story-card-styles')`. -/
def storyCardAddStyles (doc : List String) : List String :=
  if doc.contains "story-card-styles" then doc else doc ++ ["story-card-styles"]

/-- `LoginView._addAuthStyles`: the unguarded body appending the style tag. -/
def loginAddAuthStyles (doc : List String) : List String := doc ++ ["appleAuthStyles"]

/-- The guard in `LoginView.render`:
`if (!document.getElementById('appleAuthStyles')) this._addAuthStyles()`. -/
def loginRenderStyles (doc : List String) : List String :=
  if doc.contains "appleAuthStyles" then doc else loginAddAuthStyles doc

/-- `RegisterView._injectStyles`: guarded by `getElementById('registerStyles')`. -/
def registerInjectStyles (doc : List String) : List String :=
  if doc.contains "registerStyles" then doc else doc ++ ["registerStyles"]

/-- One style-injection step; `doc` is the list of style-element ids already
in `document.head`, in insertion order. -/
def styleStep (doc : List String) : StyleOp → List String
  | .footerRender => footerAddStyles doc
  | .navbarScrollStyles => navbarAddScrollStyles doc
  | .storyCardConnected => storyCardAddStyles doc
  | .loginRender => loginRenderStyles doc
  | .registerRender => registerInjectStyles doc

/-- The style ids in `document.head` after an arbitrary interleaving of
component constructions and renders, starting from an empty document. -/
def runStyleOps (ops : List StyleOp) : List String :=
  ops.foldl styleStep []

/-! ### Concrete inputs for the evaluation theorems and witnesses -/

/-- A concrete render environment (clock at 0, favorite lookup resolved
`false`). -/
def demoEnv : RenderEnv := { nowMillis := 0, genId := "story-demo", isFavResult := false }

/-- A concrete well-formed story input. -/
def demoStory : StoryInput :=
  { id := .vstr "s1", name := .vstr "Halo", photoUrl := .vstr "p.jpg"
    description := .vstr "Deskripsi", createdAt := .vstr "2024-01-01"
    lat := .vstr "12.3", lon := .vstr "45.6", author := .vstr "Dian" }

/-- The story of the specification's example scenario
`{id:"1", name:"<script>", lat:"12.3", lon:"45.6", createdAt:"invalid"}`. -/
def c2Story : StoryInput :=
  { id := .vstr "1", name := .vstr "<script>", photoUrl := .undef
    description := .undef, createdAt := .vstr "invalid"
    lat := .vstr "12.3", lon := .vstr "45.6", author := .undef }

/-- A story with a non-numeric latitude and an absent longitude. -/
def noLocStory : StoryInput :=
  { id := .vstr "s2", name := .vstr "Tanpa lokasi", photoUrl := .vstr "p.jpg"
    description := .vstr "d", createdAt := .vstr "2024-01-01"
    lat := .vstr "abc", lon := .undef, author := .vstr "Dian" }

def demoValid : ValidStory := validateStoryData demoEnv demoStory

def demoMarkup : CardMarkup :=
  (renderCard demoEnv demoValid false).toOption.getD default

def noLocMarkup : CardMarkup :=
  (renderCard demoEnv (validateStoryData demoEnv noLocStory) false).toOption.getD default

/-- A world where every external collaborator is present and succeeds. -/
def demoWorld : ExternalWorld :=
  { helperAvailable := true, toastAvailable := true, dbResult := .ok ()
    hasNativeShare := true, shareResult := .ok (), clipResult := .ok () }

/-! ### Helper lemmas: digits, printing and parsing -/

theorem digitChar_isDigit {d : Nat} (h : d < 10) : (digitChar d).isDigit = true := by
  interval_cases d <;> decide

theorem digitChar_toNat_sub {d : Nat} (h : d < 10) : (digitChar d).toNat - 48 = d := by
  interval_cases d <;> decide

theorem digitChar_not_ws {d : Nat} (h : d < 10) : (digitChar d).isWhitespace = false := by
  interval_cases d <;> decide

theorem not_ws_of_isDigit {c : Char} (h : c.isDigit = true) : c.isWhitespace = false := by
  simp only [Char.isWhitespace, Bool.or_eq_false_iff, decide_eq_false_iff_not]
  refine ⟨⟨⟨?_, ?_⟩, ?_⟩, ?_⟩ <;> rintro rfl <;> exact absurd h (by decide)

theorem natDigitsRevF_lt (fuel : Nat) : ∀ n, ∀ d ∈ natDigitsRevF fuel n, d < 10 := by
  induction fuel with
  | zero => intro n d hd; simp [natDigitsRevF] at hd
  | succ f ih =>
    intro n d hd
    match n with
    | 0 => simp [natDigitsRevF] at hd
    | m + 1 =>
      simp only [natDigitsRevF, List.mem_cons] at hd
      rcases hd with rfl | hd
      · omega
      · exact ih _ _ hd

theorem ofDigitsLsd_natDigitsRevF (fuel : Nat) :
    ∀ n, n ≤ fuel → ofDigitsLsd (natDigitsRevF fuel n) = n := by
  induction fuel with
  | zero =>
    intro n hn
    have : n = 0 := by omega
    subst this
    rfl
  | succ f ih =>
    intro n hn
    match n with
    | 0 => rfl
    | m + 1 =>
      have hdiv : (m + 1) / 10 ≤ f := by
        have := Nat.div_lt_self (Nat.succ_pos m) (show 1 < 10 by norm_num)
        omega
      simp only [natDigitsRevF, ofDigitsLsd, ih _ hdiv]
      omega

theorem natDigitsRevF_length_le (fuel : Nat) :
    ∀ n k, n < 10 ^ k → (natDigitsRevF fuel n).length ≤ k := by
  induction fuel with
  | zero => intro n k _; simp [natDigitsRevF]
  | succ f ih =>
    intro n k hn
    match n with
    | 0 => simp [natDigitsRevF]
    | m + 1 =>
      obtain ⟨k', rfl⟩ : ∃ k', k = k' + 1 := by
        refine ⟨k - 1, ?_⟩
        rcases Nat.eq_zero_or_pos k with rfl | hk
        · simp at hn
        · omega
      have hdiv : (m + 1) / 10 < 10 ^ k' := by
        rw [Nat.div_lt_iff_lt_mul (show 0 < 10 by norm_num)]
        calc m + 1 < 10 ^ (k' + 1) := hn
        _ = 10 ^ k' * 10 := by rw [pow_succ]
      simpa [natDigitsRevF] using ih _ _ hdiv

theorem natMsdChars_all_digit (n : Nat) : ∀ c ∈ natMsdChars n, c.isDigit = true := by
  intro c hc
  unfold natMsdChars at hc
  split at hc
  · simp at hc
    subst hc
    decide
  · simp only [List.mem_map, List.mem_reverse] at hc
    obtain ⟨d, hd, rfl⟩ := hc
    exact digitChar_isDigit (natDigitsRevF_lt _ _ _ hd)

theorem natMsdChars_ne_nil (n : Nat) : natMsdChars n ≠ [] := by
  unfold natMsdChars
  split
  · simp
  · rename_i h
    obtain ⟨m, rfl⟩ : ∃ m, n = m + 1 := ⟨n - 1, by omega⟩
    simp [natDigitsRevF]

theorem foldl_horner_reverse (L : List Nat) (a : Nat) :
    L.reverse.foldl (fun x d => x * 10 + d) a = a * 10 ^ L.length + ofDigitsLsd L := by
  induction L generalizing a with
  | nil => simp [ofDigitsLsd]
  | cons d L ih =>
    simp only [List.reverse_cons, List.foldl_append, List.foldl_cons, List.foldl_nil, ih,
      ofDigitsLsd, List.length_cons, pow_succ]
    ring

theorem foldl_digitChar_map (L : List Nat) (a : Nat) (h : ∀ d ∈ L, d < 10) :
    (L.map digitChar).foldl (fun x c => x * 10 + (c.toNat - 48)) a =
      L.foldl (fun x d => x * 10 + d) a := by
  induction L generalizing a with
  | nil => rfl
  | cons d L ih =>
    simp only [List.map_cons, List.foldl_cons]
    rw [digitChar_toNat_sub (h d (by simp)), ih _ (fun x hx => h x (by simp [hx]))]

theorem natMsdChars_foldl (n a : Nat) :
    (natMsdChars n).foldl (fun x c => x * 10 + (c.toNat - 48)) a =
      a * 10 ^ (natMsdChars n).length + n := by
  unfold natMsdChars
  split
  · rename_i h
    subst h
    simp
  · rw [show ((natDigitsRevF n n).reverse.map digitChar) =
        ((natDigitsRevF n n).reverse.map digitChar) from rfl]
    have hlt : ∀ d ∈ (natDigitsRevF n n).reverse, d < 10 := by
      intro d hd
      exact natDigitsRevF_lt _ _ _ (List.mem_reverse.mp hd)
    rw [foldl_digitChar_map _ _ hlt, foldl_horner_reverse,
      ofDigitsLsd_natDigitsRevF _ _ (le_refl n)]
    simp

theorem foldl_replicate_zero (k : Nat) :
    (List.replicate k '0').foldl (fun x c => x * 10 + (c.toNat - 48)) 0 = 0 := by
  induction k with
  | zero => rfl
  | succ k ih => simpa [List.replicate_succ] using ih

theorem takeDigitsAcc_append (ds : List Char) :
    ∀ (rest : List Char) (acc k : Nat),
    (∀ c ∈ ds, c.isDigit = true) →
    (∀ c ∈ rest.head?, c.isDigit = false) →
    takeDigitsAcc (ds ++ rest) acc k =
      (ds.foldl (fun a c => a * 10 + (c.toNat - 48)) acc, k + ds.length, rest) := by
  induction ds with
  | nil =>
    intro rest acc k _ hr
    cases rest with
    | nil => rfl
    | cons c cs =>
      have hc : c.isDigit = false := hr c (by simp)
      simp [takeDigitsAcc, hc]
  | cons c cs ih =>
    intro rest acc k hd hr
    have hc : c.isDigit = true := hd c (by simp)
    simp only [List.cons_append, takeDigitsAcc, hc, if_true, List.append_eq]
    rw [ih rest _ _ (fun x hx => hd x (by simp [hx])) hr]
    simp only [List.foldl_cons, List.length_cons, Prod.mk.injEq, true_and, and_true]
    omega

theorem parseSign_no_sign (x : Char) (xs : List Char) (hc : x.isDigit = true) :
    parseSign (x :: xs) = (false, x :: xs) := by
  have h1 : x ≠ '-' := by rintro rfl; exact absurd hc (by decide)
  have h2 : x ≠ '+' := by rintro rfl; exact absurd hc (by decide)
  simp [parseSign, h1, h2]

theorem natMsdChars_head_digit (n : Nat) :
    ∃ c cs, natMsdChars n = c :: cs ∧ c.isDigit = true := by
  cases hb : natMsdChars n with
  | nil => exact absurd hb (natMsdChars_ne_nil n)
  | cons c cs =>
    exact ⟨c, cs, rfl, natMsdChars_all_digit n c (by rw [hb]; simp)⟩

theorem natMsdChars_length_pos (n : Nat) : 0 < (natMsdChars n).length := by
  cases hb : natMsdChars n with
  | nil => exact absurd hb (natMsdChars_ne_nil n)
  | cons c cs => simp

theorem parse_body_int (n : Nat) :
    takeDigitsAcc (natMsdChars n) 0 0 = (n, (natMsdChars n).length, []) := by
  have h := takeDigitsAcc_append (natMsdChars n) [] 0 0 (natMsdChars_all_digit n) (by simp)
  simpa [natMsdChars_foldl] using h

theorem parse_body_int_dot (n : Nat) (rest : List Char) :
    takeDigitsAcc (natMsdChars n ++ '.' :: rest) 0 0 =
      (n, (natMsdChars n).length, '.' :: rest) := by
  have h := takeDigitsAcc_append (natMsdChars n) ('.' :: rest) 0 0 (natMsdChars_all_digit n)
    (by simp)
  simpa [natMsdChars_foldl] using h

theorem frac_digits_value (fp : Nat) :
    ((natDigitsRevF fp fp).reverse.map digitChar).foldl
      (fun x c => x * 10 + (c.toNat - 48)) 0 = fp := by
  have hlt : ∀ d ∈ (natDigitsRevF fp fp).reverse, d < 10 := fun d hd =>
    natDigitsRevF_lt _ _ _ (List.mem_reverse.mp hd)
  rw [foldl_digitChar_map _ _ hlt, foldl_horner_reverse,
    ofDigitsLsd_natDigitsRevF _ _ (le_refl fp)]
  simp

theorem parse_body_frac (fp e : Nat) (h : fp < 10 ^ e) :
    takeDigitsAcc
      (List.replicate (e - ((natDigitsRevF fp fp).reverse.map digitChar).length) '0'
        ++ (natDigitsRevF fp fp).reverse.map digitChar) 0 0 = (fp, e, []) := by
  have hlen : ((natDigitsRevF fp fp).reverse.map digitChar).length ≤ e := by
    simpa using natDigitsRevF_length_le fp fp e h
  have hdig : ∀ c ∈ (List.replicate (e - ((natDigitsRevF fp fp).reverse.map digitChar).length) '0'
      ++ (natDigitsRevF fp fp).reverse.map digitChar), c.isDigit = true := by
    intro c hc
    rcases List.mem_append.mp hc with hc | hc
    · rw [List.eq_of_mem_replicate hc]; decide
    · simp only [List.mem_map, List.mem_reverse] at hc
      obtain ⟨d, hd, rfl⟩ := hc
      exact digitChar_isDigit (natDigitsRevF_lt _ _ _ hd)
  have h0 := takeDigitsAcc_append
    (List.replicate (e - ((natDigitsRevF fp fp).reverse.map digitChar).length) '0'
      ++ (natDigitsRevF fp fp).reverse.map digitChar) [] 0 0 hdig (by simp)
  rw [List.append_nil] at h0
  rw [h0, List.foldl_append, foldl_replicate_zero, frac_digits_value]
  simp only [List.length_append, List.length_replicate, Prod.mk.injEq, true_and, and_true]
  omega

theorem parseFloatChars_decToChars (d : DecNum) : parseFloatChars (decToChars d) = some d := by
  obtain ⟨m, e⟩ := d
  rcases Nat.eq_zero_or_pos e with rfl | hepos
  · have hbody : decToChars ⟨m, 0⟩ =
        (if m < 0 then ['-'] else []) ++ natMsdChars m.natAbs := by
      simp [decToChars]
    rw [hbody]
    obtain ⟨c, cs, hcs, hc⟩ := natMsdChars_head_digit m.natAbs
    have hlen := natMsdChars_length_pos m.natAbs
    by_cases hm : m < 0
    · rw [if_pos hm, List.singleton_append]
      have hs : parseSign ('-' :: natMsdChars m.natAbs) = (true, natMsdChars m.natAbs) := by
        simp [parseSign]
      simp only [parseFloatChars, hs, parse_body_int]
      rw [if_neg (by omega)]
      simp only [Option.some.injEq, DecNum.mk.injEq, and_true, reduceIte]
      omega
    · rw [if_neg hm, List.nil_append, hcs]
      simp only [parseFloatChars, parseSign_no_sign c cs hc]
      rw [← hcs]
      simp only [parse_body_int]
      rw [if_neg (by omega)]
      simp
      omega
  · have he0 : e ≠ 0 := by omega
    have hbody : decToChars ⟨m, e⟩ =
        (if m < 0 then ['-'] else []) ++
        (natMsdChars (m.natAbs / 10 ^ e) ++ '.' ::
          (List.replicate
              (e - ((natDigitsRevF (m.natAbs % 10 ^ e) (m.natAbs % 10 ^ e)).reverse.map
                digitChar).length) '0'
            ++ (natDigitsRevF (m.natAbs % 10 ^ e) (m.natAbs % 10 ^ e)).reverse.map digitChar)) := by
      simp [decToChars, he0]
    rw [hbody]
    have hfp : m.natAbs % 10 ^ e < 10 ^ e := Nat.mod_lt _ (by positivity)
    have hlen := natMsdChars_length_pos (m.natAbs / 10 ^ e)
    have hsplit : m.natAbs / 10 ^ e * 10 ^ e + m.natAbs % 10 ^ e = m.natAbs := by
      rw [Nat.mul_comm (m.natAbs / 10 ^ e) (10 ^ e)]
      exact Nat.div_add_mod _ _
    obtain ⟨c, cs, hcs, hc⟩ := natMsdChars_head_digit (m.natAbs / 10 ^ e)
    by_cases hm : m < 0
    · rw [if_pos hm, List.singleton_append]
      have hs : parseSign ('-' :: (natMsdChars (m.natAbs / 10 ^ e) ++ '.' ::
          (List.replicate
              (e - ((natDigitsRevF (m.natAbs % 10 ^ e) (m.natAbs % 10 ^ e)).reverse.map
                digitChar).length) '0'
            ++ (natDigitsRevF (m.natAbs % 10 ^ e) (m.natAbs % 10 ^ e)).reverse.map digitChar))) =
          (true, natMsdChars (m.natAbs / 10 ^ e) ++ '.' ::
          (List.replicate
              (e - ((natDigitsRevF (m.natAbs % 10 ^ e) (m.natAbs % 10 ^ e)).reverse.map
                digitChar).length) '0'
            ++ (natDigitsRevF (m.natAbs % 10 ^ e) (m.natAbs % 10 ^ e)).reverse.map digitChar)) := by
        simp [parseSign]
      simp only [parseFloatChars, hs, parse_body_int_dot, parse_body_frac _ _ hfp]
      rw [if_neg (by omega), hsplit]
      simp only [Option.some.injEq, DecNum.mk.injEq, and_true, reduceIte]
      omega
    · rw [if_neg hm, List.nil_append]
      rw [hcs, List.cons_append]
      simp only [parseFloatChars, parseSign_no_sign c _ hc]
      rw [← List.cons_append, ← hcs]
      simp only [parse_body_int_dot, parse_body_frac _ _ hfp]
      rw [if_neg (by omega), hsplit]
      simp
      omega

theorem decToChars_dropWhile_ws (d : DecNum) :
    (decToChars d).dropWhile Char.isWhitespace = decToChars d := by
  obtain ⟨m, e⟩ := d
  have hhead : ∀ (x : Char) (xs : List Char), x.isDigit = true →
      (x :: xs).dropWhile Char.isWhitespace = x :: xs := by
    intro x xs hx
    simp [List.dropWhile, not_ws_of_isDigit hx]
  by_cases hm : m < 0
  · have : decToChars ⟨m, e⟩ = '-' :: (decToChars ⟨m, e⟩).tail := by
      unfold decToChars
      simp only [hm, if_true]
      split <;> simp
    rw [this]
    simp [List.dropWhile]
  · rcases Nat.eq_zero_or_pos e with rfl | hepos
    · have hbody : decToChars ⟨m, 0⟩ = natMsdChars m.natAbs := by
        simp [decToChars, hm]
      obtain ⟨c, cs, hcs, hc⟩ := natMsdChars_head_digit m.natAbs
      rw [hbody, hcs]
      exact hhead c cs hc
    · have he0 : e ≠ 0 := by omega
      have hbody : decToChars ⟨m, e⟩ =
          natMsdChars (m.natAbs / 10 ^ e) ++ '.' ::
            (List.replicate
                (e - ((natDigitsRevF (m.natAbs % 10 ^ e) (m.natAbs % 10 ^ e)).reverse.map
                  digitChar).length) '0'
              ++ (natDigitsRevF (m.natAbs % 10 ^ e) (m.natAbs % 10 ^ e)).reverse.map digitChar) := by
        simp [decToChars, he0, hm]
      obtain ⟨c, cs, hcs, hc⟩ := natMsdChars_head_digit (m.natAbs / 10 ^ e)
      rw [hbody, hcs, List.cons_append]
      exact hhead c _ hc

theorem jsParseFloat_decToString (d : DecNum) : jsParseFloat (decToString d) = some d := by
  unfold jsParseFloat decToString
  rw [show (String.mk (decToChars d)).data = decToChars d from rfl]
  rw [decToChars_dropWhile_ws, parseFloatChars_decToChars]

/-! ### Helper lemmas: render inversion and the card's selectors -/

theorem renderCard_ok_inv (env : RenderEnv) (story : ValidStory) (compact : Bool)
    (m : CardMarkup) (hr : renderCard env story compact = Except.ok m) :
    m.favBtn = favBtnSpec env.isFavResult ∧
    m.shareBtn = shareBtnSpec ∧
    m.detailBtn = detailBtnSpec ∧
    m.footerLoc = (match story.lat, story.lon with
      | some la, some lo => some (locBtnSpec la lo)
      | _, _ => none) ∧
    m.noLocationShown = !(story.lat.isSome && story.lon.isSome) := by
  unfold renderCard at hr
  cases hiso : jsToISOStringE (jsDateParse story.createdAt) with
  | error e =>
    simp only [hiso] at hr
    exact Except.noConfusion hr
  | ok dt =>
    simp only [hiso] at hr
    injection hr with hm
    subst hm
    exact ⟨rfl, rfl, rfl, rfl, rfl⟩

theorem validStory_update_self (s : ValidStory) (la lo : DecNum)
    (h1 : s.lat = some la) (h2 : s.lon = some lo) :
    ({ s with lat := some la, lon := some lo } : ValidStory) = s := by
  cases s
  simp only at h1 h2
  subst h1
  subst h2
  rfl

/-! ### Helper lemmas: navbar active-link characterisation -/

theorem startsWithL_hash_slash (l : List Char) (h : jsStartsWithL ['#', '/'] l = true) :
    l = [] ∨ l = ['#'] ∨ l = ['#', '/'] := by
  cases l with
  | nil => exact Or.inl rfl
  | cons c l' =>
    simp only [jsStartsWithL, Bool.and_eq_true, beq_iff_eq] at h
    obtain ⟨rfl, h⟩ := h
    cases l' with
    | nil => exact Or.inr (Or.inl rfl)
    | cons c2 l'' =>
      simp only [jsStartsWithL, Bool.and_eq_true, beq_iff_eq] at h
      obtain ⟨rfl, h⟩ := h
      cases l'' with
      | nil => exact Or.inr (Or.inr rfl)
      | cons c3 l3 => simp [jsStartsWithL] at h

theorem jsStartsWith_hash_slash (href : String) (h : jsStartsWith "#/" href = true) :
    href = "" ∨ href = "#" ∨ href = "#/" := by
  obtain ⟨dl⟩ := href
  have h' : jsStartsWithL ['#', '/'] dl = true := h
  rcases startsWithL_hash_slash dl h' with rfl | rfl | rfl
  · exact Or.inl rfl
  · exact Or.inr (Or.inl rfl)
  · exact Or.inr (Or.inr rfl)

theorem navIsActive_root_iff (href : String) (hh : jsStartsWith href "#" = true) :
    navIsActive "#/" href = true ↔ (href = "#/" ∨ href = "#") := by
  constructor
  · intro h
    unfold navIsActive at h
    simp only [Bool.or_eq_true, Bool.and_eq_true] at h
    rcases h with (h | ⟨-, h⟩) | ⟨hs, hne⟩
    · exact Or.inl (eq_of_beq h)
    · exact Or.inl (eq_of_beq h)
    · rcases jsStartsWith_hash_slash href hs with rfl | rfl | rfl
      · exact absurd hh (by decide)
      · exact Or.inr rfl
      · exact absurd hne (by decide)
  · rintro (rfl | rfl) <;> decide

/-! ### Helper lemmas: style injection -/

theorem append_singleton_nodup (doc : List String) (id : String) (h : doc.Nodup)
    (hid : id ∉ doc) : (doc ++ [id]).Nodup := by
  rw [List.nodup_append]
  refine ⟨h, List.nodup_singleton id, ?_⟩
  intro x hx hmem
  simp only [List.mem_singleton] at hmem
  subst hmem
  exact hid hx

theorem styleStep_nodup (doc : List String) (op : StyleOp) (h : doc.Nodup) :
    (styleStep doc op).Nodup := by
  have key : ∀ id : String, (if doc.contains id then doc else doc ++ [id]).Nodup := by
    intro id
    split
    · exact h
    · rename_i hc
      exact append_singleton_nodup doc id h (by simpa using hc)
  cases op with
  | footerRender => exact key "darkNavyFooter"
  | navbarScrollStyles => exact key "navbarScrollStyles"
  | storyCardConnected => exact key "story-card-styles"
  | loginRender => exact key "appleAuthStyles"
  | registerRender => exact key "registerStyles"

theorem runStyleOps_nodup (ops : List StyleOp) : (runStyleOps ops).Nodup := by
  suffices h : ∀ doc : List String, doc.Nodup → (ops.foldl styleStep doc).Nodup by
    exact h [] (by simp)
  induction ops with
  | nil => intro doc h; simpa using h
  | cons op ops ih => intro doc h; exact ih _ (styleStep_nodup doc op h)

/-! ### The claims -/

/-- Claim C1 (code bug shown): on a rendered story card the location and
detail buttons do dispatch `story-location-click` / `story-detail-click`, but
the favorite and share buttons are rendered with classes `btn-favorite` /
`btn-share` while `_attachEventListeners` queries `.btn-favorite-modern` /
`.btn-share-glass`; those two listeners never attach, so clicking the
favorite or share button dispatches no event at all. -/
theorem c1_favorite_share_listeners_detached :
    renderCard demoEnv demoValid false = Except.ok demoMarkup ∧
    attachedListeners demoMarkup =
      [(locBtnSpec ⟨123, 1⟩ ⟨456, 1⟩, CardHandler.location),
       (detailBtnSpec, CardHandler.detail)] ∧
    findByClass demoMarkup "btn-favorite-modern" = none ∧
    findByClass demoMarkup "btn-share-glass" = none ∧
    findByClass demoMarkup "btn-favorite" = some (favBtnSpec false) ∧
    clickEvents demoWorld demoMarkup demoValid (favBtnSpec false) = [] ∧
    findByClass demoMarkup "btn-share" = some shareBtnSpec ∧
    clickEvents demoWorld demoMarkup demoValid shareBtnSpec = [] ∧
    clickEvents demoWorld demoMarkup demoValid (locBtnSpec ⟨123, 1⟩ ⟨456, 1⟩) =
      [CardEvent.locationClick demoValid] ∧
    clickEvents demoWorld demoMarkup demoValid detailBtnSpec =
      [CardEvent.detailClick demoValid] :=
  ⟨rfl, rfl, rfl, rfl, rfl, rfl, rfl, rfl, rfl, rfl⟩

/-- Claim C2 (code bug shown): on the example story the sanitiser and the
coordinate validation behave as specified and `_formatDate` would print
`"Invalid Date"`, but `render` itself throws `RangeError: Invalid time value`
while evaluating `new Date("invalid").toISOString()` for the `datetime`
attribute, so the render fails and no markup is produced. -/
theorem c2_example_story_render_throws :
    (validateStoryData demoEnv c2Story).name = "&lt;script&gt;" ∧
    (validateStoryData demoEnv c2Story).lat = some ⟨123, 1⟩ ∧
    (validateStoryData demoEnv c2Story).lon = some ⟨456, 1⟩ ∧
    formatDate "invalid" = "Invalid Date" ∧
    renderCard demoEnv (validateStoryData demoEnv c2Story) false =
      Except.error "RangeError: Invalid time value" :=
  ⟨rfl, rfl, rfl, rfl, rfl⟩

/-- Claim C3: no submission of the login form with an empty email invokes the
presenter.  Both login inputs carry `required`, so interactive submission and
`requestSubmit()` run constraint validation and never fire the `submit` event
for an empty email, while `form.submit()` fires no `submit` event at all;
hence on every submission path the `onLoginSubmit` call is absent. -/
theorem c3_empty_email_never_reaches_presenter (path : SubmitPath) (presenterSet : Bool)
    (st : LoginFormState) (h : st.email = "") :
    ∀ em pw, LoginEffect.onLoginSubmit em pw ∉ submitLoginForm path presenterSet st := by
  intro em pw
  have hv : loginFormValid st = false := by
    unfold loginFormValid
    rw [h]
    rfl
  cases path with
  | programmaticSubmit => simp [submitLoginForm]
  | interactive => simp [submitLoginForm, hv]
  | requestSubmit => simp [submitLoginForm, hv]

/-- Witness for C3 at a concrete empty-email form state. -/
theorem c3_empty_email_never_reaches_presenter_witness :
    LoginEffect.onLoginSubmit "" "rahasia" ∉
      submitLoginForm SubmitPath.interactive true { email := "", password := "rahasia" } :=
  c3_empty_email_never_reaches_presenter SubmitPath.interactive true
    { email := "", password := "rahasia" } rfl "" "rahasia"

/-- Claim C4: a story whose `lat` or `lon` fails `_validateCoordinate`
renders (whenever `render` succeeds) the no-location footer variant and no
location button. -/
theorem c4_no_location_variant (env : RenderEnv) (inp : StoryInput) (compact : Bool)
    (m : CardMarkup)
    (hcoord : validateCoordinate inp.lat = none ∨ validateCoordinate inp.lon = none)
    (hr : renderCard env (validateStoryData env inp) compact = Except.ok m) :
    m.footerLoc = none ∧ m.noLocationShown = true ∧
    findByClass m "btn-location" = none := by
  obtain ⟨now, gid, fav⟩ := env
  obtain ⟨hfav, hshare, hdetail, hfoot, hnoloc⟩ := renderCard_ok_inv _ _ _ _ hr
  have hlat : (validateStoryData ⟨now, gid, fav⟩ inp).lat = validateCoordinate inp.lat := rfl
  have hlon : (validateStoryData ⟨now, gid, fav⟩ inp).lon = validateCoordinate inp.lon := rfl
  have hfoot' : m.footerLoc = none := by
    rw [hfoot, hlat, hlon]
    rcases hcoord with h | h
    · rw [h]
    · rw [h]
      cases validateCoordinate inp.lat <;> rfl
  have hnolocT : m.noLocationShown = true := by
    rw [hnoloc, hlat, hlon]
    rcases hcoord with h | h <;> simp [h]
  refine ⟨hfoot', hnolocT, ?_⟩
  unfold findByClass CardMarkup.buttons
  rw [hfav, hshare, hdetail, hfoot']
  cases fav <;> rfl

/-- Witness for C4 at a concrete story with unparseable and absent
coordinates. -/
theorem c4_no_location_variant_witness :
    noLocMarkup.footerLoc = none ∧ noLocMarkup.noLocationShown = true ∧
    findByClass noLocMarkup "btn-location" = none :=
  c4_no_location_variant demoEnv noLocStory false noLocMarkup (Or.inl rfl) rfl

/-- Claim C5: for a story whose two coordinates validate to numbers, the
rendered location button carries them through `data-lat` / `data-lon`, and a
click re-parses those strings into exactly the validated numbers
(`parseFloat ∘ toString` is the identity), dispatching
`story-location-click` whose detail is the story with exactly those
coordinates. -/
theorem c5_location_event_exact (env : RenderEnv) (inp : StoryInput) (compact : Bool)
    (m : CardMarkup) (la lo : DecNum)
    (hla : validateCoordinate inp.lat = some la)
    (hlo : validateCoordinate inp.lon = some lo)
    (hr : renderCard env (validateStoryData env inp) compact = Except.ok m) :
    (validateStoryData env inp).lat = some la ∧
    (validateStoryData env inp).lon = some lo ∧
    findByClass m "btn-location" = some (locBtnSpec la lo) ∧
    ∀ w : ExternalWorld,
      clickEvents w m (validateStoryData env inp) (locBtnSpec la lo) =
        [CardEvent.locationClick (validateStoryData env inp)] := by
  obtain ⟨now, gid, fav⟩ := env
  obtain ⟨hfav, hshare, hdetail, hfoot, hnoloc⟩ := renderCard_ok_inv _ _ _ _ hr
  have hlat : (validateStoryData ⟨now, gid, fav⟩ inp).lat = some la := hla
  have hlon : (validateStoryData ⟨now, gid, fav⟩ inp).lon = some lo := hlo
  have hfoot' : m.footerLoc = some (locBtnSpec la lo) := by
    rw [hfoot, hlat, hlon]
  have hfind : findByClass m "btn-location" = some (locBtnSpec la lo) := by
    unfold findByClass CardMarkup.buttons
    rw [hfav, hshare, hdetail, hfoot']
    cases fav <;> rfl
  have hfindFavM : findByClass m "btn-favorite-modern" = none := by
    unfold findByClass CardMarkup.buttons
    rw [hfav, hshare, hdetail, hfoot']
    cases fav <;> rfl
  have hfindShG : findByClass m "btn-share-glass" = none := by
    unfold findByClass CardMarkup.buttons
    rw [hfav, hshare, hdetail, hfoot']
    cases fav <;> rfl
  have hfindDet : findByClass m "btn-view-detail" = some detailBtnSpec := by
    unfold findByClass CardMarkup.buttons
    rw [hfav, hshare, hdetail, hfoot']
    cases fav <;> rfl
  have hattach : attachedListeners m =
      [(locBtnSpec la lo, CardHandler.location), (detailBtnSpec, CardHandler.detail)] := by
    unfold attachedListeners
    rw [hfind, hfindFavM, hfindShG, hfindDet]
    rfl
  have hDB : detailBtnSpec ≠ locBtnSpec la lo := by
    intro hEq
    have h2 := congrArg BtnSpec.classes hEq
    rw [show detailBtnSpec.classes = ["btn-view-detail"] from rfl,
        show (locBtnSpec la lo).classes = ["btn-location"] from rfl] at h2
    exact absurd h2 (by decide)
  have hhand : handlersFor m (locBtnSpec la lo) = [CardHandler.location] := by
    unfold handlersFor
    rw [hattach]
    simp [hDB]
  refine ⟨hlat, hlon, hfind, ?_⟩
  intro w
  unfold clickEvents
  rw [hhand]
  simp only [List.flatMap_cons, List.flatMap_nil, List.append_nil]
  unfold runCardHandler handleLocationClick
  rw [show parseFloatOptAttr (locBtnSpec la lo).dataLat = some la from
        jsParseFloat_decToString la,
      show parseFloatOptAttr (locBtnSpec la lo).dataLon = some lo from
        jsParseFloat_decToString lo]
  show [CardEvent.locationClick
          { validateStoryData ⟨now, gid, fav⟩ inp with lat := some la, lon := some lo }] =
       [CardEvent.locationClick (validateStoryData ⟨now, gid, fav⟩ inp)]
  rw [validStory_update_self _ la lo hlat hlon]

/-- Witness for C5 at the concrete demo story (`lat:"12.3"`, `lon:"45.6"`). -/
theorem c5_location_event_exact_witness :
    (validateStoryData demoEnv demoStory).lat = some ⟨123, 1⟩ ∧
    (validateStoryData demoEnv demoStory).lon = some ⟨456, 1⟩ ∧
    findByClass demoMarkup "btn-location" = some (locBtnSpec ⟨123, 1⟩ ⟨456, 1⟩) ∧
    ∀ w : ExternalWorld,
      clickEvents w demoMarkup (validateStoryData demoEnv demoStory)
          (locBtnSpec ⟨123, 1⟩ ⟨456, 1⟩) =
        [CardEvent.locationClick (validateStoryData demoEnv demoStory)] :=
  c5_location_event_exact demoEnv demoStory false demoMarkup ⟨123, 1⟩ ⟨456, 1⟩ rfl rfl rfl

/-- Claim C6 (counterexample): with nav links `#/` and `#`, hash `#/` marks
both links active — the prefix clause fires for `#` — so the claim that only
the `#/` link is marked active fails. -/
theorem c6_counterexample :
    ¬ (∀ l ∈ updateActiveLink "#/"
          [{ href := "#/", active := false, ariaCurrent := false },
           { href := "#", active := false, ariaCurrent := false }],
        l.active = true → l.href = "#/") := by
  decide

/-- Claim C6 (amended): for nav links whose hrefs start with `#` (the
`a[href^="#"]` selector), `_updateActiveLink` with hash `#/` marks a link
active exactly when its href is `#/` or `#` — in particular, when no `#` link
exists only the root link is active — and with hash `#/about` it marks every
`#/about` link active and never marks a `#/` link active. -/
theorem c6_active_link_amended (links : List NavLink)
    (hsel : ∀ l ∈ links, jsStartsWith l.href "#" = true) :
    (∀ l ∈ updateActiveLink "#/" links,
      (l.active = true ↔ (l.href = "#/" ∨ l.href = "#"))) ∧
    (∀ l ∈ updateActiveLink "#/about" links,
      (l.href = "#/about" → l.active = true) ∧ (l.href = "#/" → l.active = false)) := by
  have hkey : ∀ hash : String, hash.isEmpty = false →
      updateActiveLink hash links = links.map (fun l =>
        { l with active := navIsActive hash l.href
                 ariaCurrent := navIsActive hash l.href }) := by
    intro hash hh
    unfold updateActiveLink
    simp [hh]
  constructor
  · intro l hl
    rw [hkey "#/" rfl] at hl
    simp only [List.mem_map] at hl
    obtain ⟨l0, hl0, rfl⟩ := hl
    show navIsActive "#/" l0.href = true ↔ (l0.href = "#/" ∨ l0.href = "#")
    exact navIsActive_root_iff l0.href (hsel l0 hl0)
  · intro l hl
    rw [hkey "#/about" rfl] at hl
    simp only [List.mem_map] at hl
    obtain ⟨l0, hl0, rfl⟩ := hl
    constructor
    · intro hhref
      have h0 : l0.href = "#/about" := hhref
      show navIsActive "#/about" l0.href = true
      rw [h0]
      decide
    · intro hhref
      have h0 : l0.href = "#/" := hhref
      show navIsActive "#/about" l0.href = false
      rw [h0]
      decide

/-- Witness for the amended C6 at a concrete link set. -/
theorem c6_active_link_amended_witness :
    (∀ l ∈ updateActiveLink "#/"
          [{ href := "#/", active := false, ariaCurrent := false },
           { href := "#/about", active := false, ariaCurrent := false }],
      (l.active = true ↔ (l.href = "#/" ∨ l.href = "#"))) ∧
    (∀ l ∈ updateActiveLink "#/about"
          [{ href := "#/", active := false, ariaCurrent := false },
           { href := "#/about", active := false, ariaCurrent := false }],
      (l.href = "#/about" → l.active = true) ∧ (l.href = "#/" → l.active = false)) :=
  c6_active_link_amended
    [{ href := "#/", active := false, ariaCurrent := false },
     { href := "#/about", active := false, ariaCurrent := false }]
    (by decide)

/-- Claim C7: across every interleaving of component constructions and
renders, each style id occurs at most once among the style elements injected
into `document.head`: every injection path is guarded by an id-existence
check, so the id list stays duplicate-free. -/
theorem c7_style_injected_at_most_once (ops : List StyleOp) (id : String) :
    (runStyleOps ops).count id ≤ 1 :=
  List.nodup_iff_count_le_one.mp (runStyleOps_nodup ops) id

/-- Claim C8 (counterexample): submitting the register form with no presenter
set produces no effects at all — in particular no alert — refuting the claim
that both views surface the missing presenter with their own alert message. -/
theorem c8_counterexample :
    ¬ ∃ msg kind, RegisterEffect.showAlert msg kind ∈
        registerSubmitHandler false
          { name := "Dian", email := "dian@mail.com", password := "12345678" } := by
  rintro ⟨msg, kind, hmem⟩
  simp [registerSubmitHandler] at hmem

/-- Claim C8 (amended): with no presenter set neither view throws (both
handlers are total functions into effect lists) and neither invokes a
presenter callback; `LoginView` surfaces the condition with its alert
`'Terjadi kesalahan sistem'`, while `RegisterView` does nothing at all — its
submit listener has no `else` branch, so no alert is shown. -/
theorem c8_missing_presenter_amended (stL : LoginFormState) (stR : RegisterFormState) :
    loginSubmitHandler false stL = [LoginEffect.showAlert "Terjadi kesalahan sistem"] ∧
    registerSubmitHandler false stR = [] :=
  ⟨rfl, rfl⟩

/-- Claim C9: when the awaited external call fails, `_handleFavoriteClick`'s
catch branch recovers with a log and an optional toast, the button keeps its
class list (hence its `active` state), `aria-label` and `title`, and no
`story-favorite-toggle` event is dispatched; a failing `navigator.share` or
clipboard write is likewise caught inside `_handleShareClick`, which emits
only the log, the optional toast and the unconditional `story-share-click`
dispatch and touches no favorite state.  Both handlers are total: no error
propagates to the caller. -/
theorem c9_failed_actions_leave_state (ha ta : Bool) (e e2 : String)
    (story : ValidStory) (btn : BtnSpec) :
    (handleFavoriteClick ha ta (Except.error e) story btn).1 = btn ∧
    (∀ ev, FavEffect.dispatch ev ∉ (handleFavoriteClick ha ta (Except.error e) story btn).2) ∧
    handleShareClick true ta (Except.error e) (Except.error e2) story =
      (FavEffect.shareCall ::
        (if e = "AbortError" then [] else [FavEffect.logError "StoryCard: Error sharing"])) ++
      [FavEffect.dispatch (CardEvent.shareClick story)] ∧
    handleShareClick false ta (Except.error e) (Except.error e2) story =
      [FavEffect.clipboardWriteCall,
       FavEffect.logError "StoryCard: Error copying to clipboard"] ++
      (if ta then [FavEffect.toast "Gagal menyalin link" "error"] else []) ++
      [FavEffect.dispatch (CardEvent.shareClick story)] := by
  refine ⟨?_, ?_, rfl, rfl⟩
  · unfold handleFavoriteClick
    cases ha <;> rfl
  · intro ev
    unfold handleFavoriteClick
    cases ha
    · simp
    · cases hact : btn.classes.contains "active" <;> cases ta <;> simp [hact]

/-- Claim C10: assigning a falsy value to the `story` property is a no-op at
the public interface: the setter returns early, leaving the stored story, the
markup and the whole card state unchanged (and, being a total function, it
raises nothing). -/
theorem c10_falsy_story_noop (env : RenderEnv) (st : CardState) :
    setStory env st none = st := rfl
